import Mathlib

/-!
A shallow embedding of the Wishbone verification harness of this
repository: the driver, monitor and scoreboard of `testbench.py`, the
pipelined generator/driver/scoreboard of `tests/wishbone_tb.py`, and the
reset sequences of the three testbenches.  The device under test (DUT) is
not part of the repository; where a claim depends on its behaviour, the
DUT is modelled from the specification (see `dutEdge`).
-/

/-- Python dict update `m[k] = v` on an association list: replace in place
if the key is present, append otherwise.  Keys stay unique and insertion
order is preserved, exactly as for a Python dict. -/
def dictInsert {K V : Type} [DecidableEq K] (k : K) (v : V) :
    List (K × V) → List (K × V)
  | [] => [(k, v)]
  | (k1, v1) :: rest =>
    if k1 = k then (k, v) :: rest else (k1, v1) :: dictInsert k v rest

/-- Python dict read `m.get(k)`: `some v` when the key is bound, `none`
otherwise. -/
def dictLookup {K V : Type} [DecidableEq K] (k : K) :
    List (K × V) → Option V
  | [] => none
  | (k1, v1) :: rest => if k1 = k then some v1 else dictLookup k rest

/-- The key list of an association-list dict. -/
def dictKeys {K V : Type} (m : List (K × V)) : List K := m.map Prod.fst

/-- Whether an `Except` computation returned normally (no exception was
raised). -/
def exceptOk {E A : Type} : Except E A → Bool
  | Except.ok _ => true
  | Except.error _ => false

/-- Transaction data members (`tests/wishbone_tb.py`,
`WishboneTransaction.__init__`): address, data and expected data. -/
structure WishboneTransaction where
  address : Nat
  data : Nat
  expected_data : Nat
deriving DecidableEq

/-- The named signals of the DUT together with its internal memory.
Inputs (`a_reset_l`, `start_i`, `we_i`, `addr_i`, `data_i`, `wb_ack_i`)
are driven by the harness of `testbench.py`; the outputs (`wb_dat_o`,
`wb_stb_o`, `wb_cyc_o`, `wb_adr_o`, `busy_o`) and `mem` are driven by the
DUT model. -/
structure DutState where
  mem : List (Nat × Nat)
  a_reset_l : Nat
  start_i : Nat
  we_i : Nat
  addr_i : Nat
  data_i : Nat
  wb_ack_i : Nat
  wb_dat_o : Nat
  wb_stb_o : Nat
  wb_cyc_o : Nat
  wb_adr_o : Nat
  busy_o : Nat
deriving DecidableEq

/-- Modelled from the spec: the DUT itself (its RTL is not in the
repository; the spec describes it as an opaque memory-mapped device with
clocked-logic semantics, post-reset outputs 0, a write commit and a
read-data latch at the request edge, and a `busy_o` flag that clears at an
acknowledged edge).  One rising clock edge: reads observe the values
driven before the edge, effects are visible afterwards. -/
def dutEdge (s : DutState) : DutState :=
  if s.a_reset_l = 0 then
    { s with mem := [], wb_dat_o := 0, wb_stb_o := 0, wb_cyc_o := 0,
             wb_adr_o := 0, busy_o := 0 }
  else if s.start_i = 1 then
    if s.we_i = 1 then
      { s with mem := dictInsert s.addr_i s.data_i s.mem,
               wb_stb_o := 1, wb_cyc_o := 1, wb_adr_o := s.addr_i,
               wb_dat_o := s.data_i, busy_o := 1 }
    else
      { s with wb_stb_o := 1, wb_cyc_o := 1, wb_adr_o := s.addr_i,
               wb_dat_o := (dictLookup s.addr_i s.mem).getD 0, busy_o := 1 }
  else if s.wb_ack_i = 1 then
    { s with busy_o := 0 }
  else
    s

/-- `dutEdge` iterated: the state after `n` rising clock edges. -/
def dutIter : Nat → DutState → DutState
  | 0, s => s
  | n+1, s => dutIter n (dutEdge s)

/-- `WishboneDriver.write` of `testbench.py` (lines 9-15): drive
`start_i`, `we_i = 1`, address and data, wait one rising edge, then drop
`start_i`. -/
def WishboneDriver.write (s : DutState) (address data : Nat) : DutState :=
  let s1 := { s with start_i := 1, we_i := 1, addr_i := address, data_i := data }
  let s2 := dutEdge s1
  { s2 with start_i := 0 }

/-- `WishboneDriver.ack` of `testbench.py` (lines 17-21): after a delay,
pulse `wb_ack_i` high across one rising edge. -/
def WishboneDriver.ack (s : DutState) : DutState :=
  let s1 := { s with wb_ack_i := 1 }
  let s2 := dutEdge s1
  { s2 with wb_ack_i := 0 }

/-- `WishboneDriver.read` of `testbench.py` (lines 23-30): drive
`start_i` with `we_i = 0` and the address, wait one edge, drop `start_i`,
wait one more edge for the output data to be stable, and return
`wb_dat_o`. -/
def WishboneDriver.read (s : DutState) (address : Nat) : DutState × Nat :=
  let s1 := { s with start_i := 1, we_i := 0, addr_i := address }
  let s2 := dutEdge s1
  let s3 := { s2 with start_i := 0 }
  let s4 := dutEdge s3
  (s4, s4.wb_dat_o)

/-- The reset sequence of `test_wb_interface` (`testbench.py` lines
68-75): drive `a_reset_l` low, hold for three rising edges, release it,
and wait one more rising edge. -/
def applyReset (s : DutState) : DutState :=
  let s1 := { s with a_reset_l := 0 }
  let s2 := dutEdge (dutEdge (dutEdge s1))
  let s3 := { s2 with a_reset_l := 1 }
  dutEdge s3

/-- The busy polling loop of `test_wb_interface` (`testbench.py` lines
99-106): up to the given number of rising edges, wait an edge and stop as
soon as `busy_o` is deasserted; `none` means the bound was exhausted with
`busy_o` still asserted (the Python `assert False` branch). -/
def busyWaitLoop (s : DutState) : Nat → Option DutState
  | 0 => none
  | n+1 =>
    let s1 := dutEdge s
    if s1.busy_o = 0 then some s1 else busyWaitLoop s1 n

/-- The failure raised by `test_wb_interface` when `busy_o` stays
asserted past the five-edge bound. -/
inductive TbFailure
  | busyDeassert
deriving DecidableEq

/-- The tail of `test_wb_interface` after the acknowledge (`testbench.py`
lines 99-119): poll `busy_o` for at most five edges; on success continue
to the read of address `0x10` and return its data, otherwise abort with
the assertion failure. -/
def test_wb_tail (s : DutState) : Except TbFailure Nat :=
  match busyWaitLoop s 5 with
  | some s1 => Except.ok (WishboneDriver.read s1 16).2
  | none => Except.error TbFailure.busyDeassert

/-- The write/acknowledge/busy-poll/read flow of `test_wb_interface`
(`testbench.py` lines 89-119) starting from an already reset state. -/
def test_wb_after_reset (s : DutState) (a d : Nat) : Except TbFailure Nat :=
  let s2 := WishboneDriver.write s a d
  let s3 := WishboneDriver.ack s2
  match busyWaitLoop s3 5 with
  | some s4 => Except.ok (WishboneDriver.read s4 a).2
  | none => Except.error TbFailure.busyDeassert

/-- The full `test_wb_interface` flow: reset, write, acknowledge, busy
poll, read. -/
def test_wb_sequence (s : DutState) (a d : Nat) : Except TbFailure Nat :=
  test_wb_after_reset (applyReset s) a d

/-- A DUT state after reset release in which `busy_o` is stuck asserted
and no acknowledge ever arrives. -/
def stuckBusy : DutState :=
  { mem := [], a_reset_l := 1, start_i := 0, we_i := 0, addr_i := 0,
    data_i := 0, wb_ack_i := 0, wb_dat_o := 0, wb_stb_o := 0,
    wb_cyc_o := 0, wb_adr_o := 0, busy_o := 1 }

/-- The names of the signals sampled by `WishboneMonitor.monitor` and
recorded by `WishboneScoreboard` (`testbench.py`). -/
inductive SignalName
  | wb_stb_o
  | wb_cyc_o
  | wb_adr_o
  | wb_dat_o
  | wb_ack_i
  | busy_o
deriving DecidableEq

/-- The `AssertionError` raised by `WishboneScoreboard.check` on a data
mismatch: the signal, its expected value and the observed value (`none`
when the monitor dict has no entry for the signal). -/
inductive ScoreboardError
  | mismatch (signal : SignalName) (expected : Nat) (observed : Option Nat)
deriving DecidableEq

/-- `WishboneScoreboard.expect` (`testbench.py` lines 53-54): record the
expected value for a signal in the expectation dict. -/
def WishboneScoreboard.expect (tbl : List (SignalName × Nat))
    (signal : SignalName) (value : Nat) : List (SignalName × Nat) :=
  dictInsert signal value tbl

/-- `WishboneScoreboard.check` (`testbench.py` lines 56-59): walk the
expectation dict and raise an `AssertionError` at the first signal whose
monitored value differs from the expectation. -/
def WishboneScoreboard.check : List (SignalName × Nat) →
    List (SignalName × Nat) → Except ScoreboardError Unit
  | [], _ => Except.ok ()
  | (sig, ev) :: rest, md =>
    if dictLookup sig md = some ev then WishboneScoreboard.check rest md
    else Except.error (ScoreboardError.mismatch sig ev (dictLookup sig md))

/-- The monitor's snapshot dict (`WishboneMonitor.__init__` starts it
empty, hence the `Option` fields). -/
structure MonData where
  wb_stb_o : Option Nat
  wb_cyc_o : Option Nat
  wb_adr_o : Option Nat
  wb_dat_o : Option Nat
  wb_ack_i : Option Nat
  busy_o : Option Nat
deriving DecidableEq

/-- The six signal reads of one `WishboneMonitor.monitor` loop iteration
(`testbench.py` lines 38-46). -/
def WishboneMonitor.sample (s : DutState) : MonData :=
  { wb_stb_o := some s.wb_stb_o, wb_cyc_o := some s.wb_cyc_o,
    wb_adr_o := some s.wb_adr_o, wb_dat_o := some s.wb_dat_o,
    wb_ack_i := some s.wb_ack_i, busy_o := some s.busy_o }

/-- One iteration of the monitor loop acting on the combined state: the
monitor reads the six signals into its dict and writes no signal. -/
def WishboneMonitor.monitorStep (st : DutState × MonData) :
    DutState × MonData :=
  (st.1, WishboneMonitor.sample st.1)

/-- `n` iterations of the monitor loop. -/
def WishboneMonitor.monitorRun : Nat → DutState × MonData → DutState × MonData
  | 0, st => st
  | n+1, st => WishboneMonitor.monitorRun n (WishboneMonitor.monitorStep st)

/-- `WishboneDriver.recv_data` of `tests/wishbone_tb.py` (lines 77-87) as
a timed trace.  Time counts rising clock edges from `t`.  Each queue
element carries the extra number of edges before its acknowledge rises
(the acknowledge edge is always strictly after the assertion edge).  The
result lists, in execution order, each transaction with the edge at which
its address/data/cyc were asserted and the edge at which cyc was
deasserted (the acknowledge edge). -/
def WishboneDriver.recv_data (t : Nat) :
    List (WishboneTransaction × Nat) → List (WishboneTransaction × Nat × Nat)
  | [] => []
  | (trn, ackDelay) :: rest =>
    (trn, t + 1, t + 2 + ackDelay) ::
      WishboneDriver.recv_data (t + 2 + ackDelay) rest

/-- The `await RisingEdge(self.dut.ack)` of `WishboneDriver.recv_data`
(`tests/wishbone_tb.py` line 84), given a bound of `fuel` edges to
inspect: the first edge after `t` at which `sig` is high, or `none` when
no such edge occurs within the bound.  The source has no bound at all: it
suspends until the edge occurs. -/
def awaitRisingEdge (sig : Nat → Bool) : Nat → Nat → Option Nat
  | _, 0 => none
  | t, fuel+1 =>
    if sig (t + 1) then some (t + 1) else awaitRisingEdge sig (t + 1) fuel

/-- One observable action of the generator coroutine of
`tests/wishbone_tb.py`. -/
inductive GenAction
  | enqueue (t : WishboneTransaction)
  | waitCompletion
  | setEvent
deriving DecidableEq

/-- Loop of `WishboneGenerator.gen_data` (`tests/wishbone_tb.py` lines
42-49): starting at index `i`, enqueue `n` transactions (address `i`,
data `i * 2`) back to back, then set the completion event once. -/
def gen_data_go : Nat → Nat → List GenAction
  | _, 0 => [GenAction.setEvent]
  | i, n+1 => GenAction.enqueue ⟨i, i * 2, 0⟩ :: gen_data_go (i+1) n

/-- `WishboneGenerator.gen_data` for a generator constructed with the
given transaction count. -/
def WishboneGenerator.gen_data (count : Nat) : List GenAction :=
  gen_data_go 0 count

/-- A generator trace is paced when no enqueue happens while a previous
enqueue is still awaiting its completion signal (at most one in-flight
unacknowledged item). -/
def pacedFrom : Bool → List GenAction → Bool
  | _, [] => true
  | pending, GenAction.enqueue _ :: rest =>
    if pending then false else pacedFrom true rest
  | _, GenAction.waitCompletion :: rest => pacedFrom false rest
  | pending, GenAction.setEvent :: rest => pacedFrom pending rest

/-- Pacing of a whole generator trace. -/
def paced (tr : List GenAction) : Bool := pacedFrom false tr

/-- Number of completion waits in a generator trace. -/
def countWaits : List GenAction → Nat
  | [] => 0
  | GenAction.waitCompletion :: rest => countWaits rest + 1
  | _ :: rest => countWaits rest

/-- Number of event sets in a generator trace. -/
def countSetEvents : List GenAction → Nat
  | [] => 0
  | GenAction.setEvent :: rest => countSetEvents rest + 1
  | _ :: rest => countSetEvents rest

/-- Addresses of the enqueued transactions of a generator trace, in
order. -/
def enqueuedAddrs : List GenAction → List Nat
  | [] => []
  | GenAction.enqueue t :: rest => t.address :: enqueuedAddrs rest
  | _ :: rest => enqueuedAddrs rest

/-- `Scoreboard.add_expected_transaction` of `tests/wishbone_tb.py`
(lines 99-105): store the transaction in the expectation dict under its
address. -/
def Scoreboard.add_expected_transaction
    (tbl : List (Nat × WishboneTransaction)) (t : WishboneTransaction) :
    List (Nat × WishboneTransaction) :=
  dictInsert t.address t tbl

/-- The three outcomes printed by `Scoreboard.check_transaction`
(`tests/wishbone_tb.py` lines 107-120). -/
inductive CheckResult
  | passed
  | failed (expected got : Nat)
  | unexpected (address data : Nat)
deriving DecidableEq

/-- `Scoreboard.check_transaction` (`tests/wishbone_tb.py` lines
107-120): look the received transaction's address up in the expectation
dict; report pass on equal data, a failed transaction on differing data,
and an unexpected transaction when the address is unknown. -/
def Scoreboard.check_transaction (tbl : List (Nat × WishboneTransaction))
    (t : WishboneTransaction) : CheckResult :=
  match dictLookup t.address tbl with
  | some e => if e.data = t.data then CheckResult.passed
              else CheckResult.failed e.data t.data
  | none => CheckResult.unexpected t.address t.data

/-- The check loop at the end of `Testbench.run` (`tests/wishbone_tb.py`
lines 152-157): for each transaction still in the queue, first register
it as its own expectation, then check it. -/
def Testbench.runChecks (tbl : List (Nat × WishboneTransaction)) :
    List WishboneTransaction → List CheckResult
  | [] => []
  | t :: ts =>
    let tbl1 := Scoreboard.add_expected_transaction tbl t
    Scoreboard.check_transaction tbl1 t :: Testbench.runChecks tbl1 ts

/-- Events of a reset / transaction-start trace. -/
inductive ResetEvent
  | assertRst
  | edge
  | deassertRst
  | txnStart
deriving DecidableEq

/-- Number of `edge` events before the first occurrence of `stop` in a
trace. -/
def edgesUntil (stop : ResetEvent) : List ResetEvent → Nat
  | [] => 0
  | e :: rest =>
    if e = stop then 0
    else (if e = ResetEvent.edge then 1 else 0) + edgesUntil stop rest

/-- The suffix of a trace after the first occurrence of `stop`. -/
def dropThrough (stop : ResetEvent) : List ResetEvent → List ResetEvent
  | [] => []
  | e :: rest => if e = stop then rest else dropThrough stop rest

/-- The reset portion of `test_wb_interface` (`testbench.py` lines
68-75) followed by its first driven transaction (`driver.write`, line
92): reset asserted, three edges held, reset released, one edge waited,
then the write drives the bus. -/
def tb_run_trace : List ResetEvent :=
  [ResetEvent.assertRst, ResetEvent.edge, ResetEvent.edge, ResetEvent.edge,
   ResetEvent.deassertRst, ResetEvent.edge, ResetEvent.txnStart]

/-- `Driver.reset` of `tests/dpll_tb.py` (lines 36-42) followed by the
first action of `Driver.run` (lines 44-58): reset asserted, five edges
held, reset released, and the driver then immediately pops a transaction
and starts driving `clk_fin` with no intervening clock edge. -/
def dpll_run_trace : List ResetEvent :=
  [ResetEvent.assertRst, ResetEvent.edge, ResetEvent.edge, ResetEvent.edge,
   ResetEvent.edge, ResetEvent.edge, ResetEvent.deassertRst,
   ResetEvent.txnStart]

theorem dictLookup_dictInsert_self {K V : Type} [DecidableEq K] (k : K)
    (v : V) (m : List (K × V)) :
    dictLookup k (dictInsert k v m) = some v := by
  induction m with
  | nil => simp [dictInsert, dictLookup]
  | cons p rest ih =>
    obtain ⟨k1, v1⟩ := p
    by_cases h : k1 = k
    · simp [dictInsert, dictLookup, h]
    · simp [dictInsert, dictLookup, h, ih]

theorem dictLookup_dictInsert_ne {K V : Type} [DecidableEq K] {k k1 : K}
    (v : V) (m : List (K × V)) (h : k ≠ k1) :
    dictLookup k (dictInsert k1 v m) = dictLookup k m := by
  induction m with
  | nil => simp [dictInsert, dictLookup, Ne.symm h]
  | cons p rest ih =>
    obtain ⟨k2, w⟩ := p
    by_cases h2 : k2 = k1
    · subst h2
      simp [dictInsert, dictLookup, Ne.symm h]
    · simp [dictInsert, dictLookup, h2, ih]

theorem dictInsert_dictInsert_self {K V : Type} [DecidableEq K] (k : K)
    (v1 v2 : V) (m : List (K × V)) :
    dictInsert k v2 (dictInsert k v1 m) = dictInsert k v2 m := by
  induction m with
  | nil => simp [dictInsert]
  | cons p rest ih =>
    obtain ⟨k1, w⟩ := p
    by_cases h : k1 = k
    · simp [dictInsert, h]
    · simp [dictInsert, h, ih]

theorem dictKeys_dictInsert_mem {K V : Type} [DecidableEq K] (k : K)
    (v : V) (m : List (K × V)) :
    ∀ x ∈ dictKeys (dictInsert k v m), x = k ∨ x ∈ dictKeys m := by
  induction m with
  | nil =>
    intro x hx
    simp [dictInsert, dictKeys] at hx
    exact Or.inl hx
  | cons p rest ih =>
    obtain ⟨k1, w⟩ := p
    intro x hx
    by_cases h : k1 = k
    · subst h
      simp [dictInsert, dictKeys] at hx ⊢
      tauto
    · have he : dictInsert k v ((k1, w) :: rest) =
          (k1, w) :: dictInsert k v rest := by
        simp [dictInsert, h]
      rw [he] at hx
      simp only [dictKeys, List.map_cons, List.mem_cons] at hx ⊢
      rcases hx with h1 | h2
      · exact Or.inr (Or.inl h1)
      · rcases ih x h2 with h3 | h4
        · exact Or.inl h3
        · exact Or.inr (Or.inr h4)

theorem dictKeys_dictInsert_nodup {K V : Type} [DecidableEq K] (k : K)
    (v : V) (m : List (K × V)) (h : (dictKeys m).Nodup) :
    (dictKeys (dictInsert k v m)).Nodup := by
  induction m with
  | nil => simp [dictInsert, dictKeys]
  | cons p rest ih =>
    obtain ⟨k1, w⟩ := p
    simp only [dictKeys, List.map_cons, List.nodup_cons] at h
    by_cases hk : k1 = k
    · subst hk
      have he : dictInsert k1 v ((k1, w) :: rest) = (k1, v) :: rest := by
        simp [dictInsert]
      rw [he]
      simpa [dictKeys, List.nodup_cons] using h
    · have he : dictInsert k v ((k1, w) :: rest) =
          (k1, w) :: dictInsert k v rest := by
        simp [dictInsert, hk]
      rw [he]
      simp only [dictKeys, List.map_cons, List.nodup_cons]
      refine ⟨?_, ih h.2⟩
      intro hmem
      rcases dictKeys_dictInsert_mem k v rest k1 hmem with h1 | h2
      · exact hk h1
      · exact h.1 (by simpa [dictKeys] using h2)

theorem dutEdge_a_reset_l (s : DutState) :
    (dutEdge s).a_reset_l = s.a_reset_l := by
  unfold dutEdge
  split_ifs <;> rfl

theorem applyReset_a_reset_l (s : DutState) :
    (applyReset s).a_reset_l = 1 := by
  unfold applyReset
  rw [dutEdge_a_reset_l]

theorem busyWaitLoop_succ (s : DutState) (n : Nat) :
    busyWaitLoop s (n + 1) =
      if (dutEdge s).busy_o = 0 then some (dutEdge s)
      else busyWaitLoop (dutEdge s) n := rfl

theorem busyWaitLoop_five_clear (s : DutState)
    (h : (dutEdge s).busy_o = 0) :
    busyWaitLoop s 5 = some (dutEdge s) := by
  show busyWaitLoop s (4 + 1) = some (dutEdge s)
  rw [busyWaitLoop_succ, if_pos h]

theorem roundtrip_core (s : DutState) (a d : Nat) (h : s.a_reset_l = 1) :
    test_wb_after_reset s a d = Except.ok d := by
  have hw : WishboneDriver.write s a d =
      { s with mem := dictInsert a d s.mem, start_i := 0, we_i := 1,
               addr_i := a, data_i := d, wb_dat_o := d, wb_stb_o := 1,
               wb_cyc_o := 1, wb_adr_o := a, busy_o := 1 } := by
    simp [WishboneDriver.write, dutEdge, h]
  have ha : WishboneDriver.ack (WishboneDriver.write s a d) =
      { s with mem := dictInsert a d s.mem, start_i := 0, we_i := 1,
               addr_i := a, data_i := d, wb_ack_i := 0, wb_dat_o := d,
               wb_stb_o := 1, wb_cyc_o := 1, wb_adr_o := a, busy_o := 0 } := by
    rw [hw]
    simp [WishboneDriver.ack, dutEdge, h]
  set s3 : DutState :=
      { s with mem := dictInsert a d s.mem, start_i := 0, we_i := 1,
               addr_i := a, data_i := d, wb_ack_i := 0, wb_dat_o := d,
               wb_stb_o := 1, wb_cyc_o := 1, wb_adr_o := a, busy_o := 0 }
    with hs3
  have hfix : dutEdge s3 = s3 := by
    simp [dutEdge, hs3, h]
  have hb : (dutEdge s3).busy_o = 0 := by
    rw [hfix]
  have h5 : busyWaitLoop s3 5 = some s3 := by
    have h6 := busyWaitLoop_five_clear s3 hb
    rwa [hfix] at h6
  have hr : (WishboneDriver.read s3 a).2 = d := by
    simp [WishboneDriver.read, dutEdge, hs3, h, dictLookup_dictInsert_self]
  show (match busyWaitLoop (WishboneDriver.ack (WishboneDriver.write s a d)) 5 with
    | some s4 => Except.ok (WishboneDriver.read s4 a).2
    | none => Except.error TbFailure.busyDeassert) = Except.ok d
  rw [ha, h5]
  simpa using hr

/-- Claim C1: after reset completes, a `write(a, d)` followed by the
acknowledge, the busy poll and a `read(a)` (no interleaving write to `a`)
returns `d`: the driver's read latches the bus data output after the
write's handshake has completed.  The DUT is modelled from the spec
(`dutEdge`). -/
theorem wb_write_read_roundtrip (s : DutState) (a d : Nat) :
    test_wb_sequence s a d = Except.ok d := by
  show test_wb_after_reset (applyReset s) a d = Except.ok d
  exact roundtrip_core (applyReset s) a d (applyReset_a_reset_l s)

/-- Claim C2, counterexample: a mismatch recorded by the scoreboard is
immediately fatal, not accumulated.  With a single expectation
`wb_stb_o = 1` and an observed value `0`, `WishboneScoreboard.check`
raises the `AssertionError` instead of returning normally. -/
theorem check_mismatch_aborts :
    WishboneScoreboard.check [(SignalName.wb_stb_o, 1)]
        [(SignalName.wb_stb_o, 0)] =
      Except.error (ScoreboardError.mismatch SignalName.wb_stb_o 1 (some 0))
    ∧ exceptOk (WishboneScoreboard.check [(SignalName.wb_stb_o, 1)]
        [(SignalName.wb_stb_o, 0)]) = false :=
  ⟨rfl, rfl⟩

/-- Claim C2, amended: `WishboneScoreboard.check` returns normally if and
only if every recorded expectation matches the monitored data; the first
mismatch raises an `AssertionError` which aborts the check (and the run),
so the verdict is pass exactly when no mismatch exists. -/
theorem check_ok_iff_all_match (exps md : List (SignalName × Nat)) :
    exceptOk (WishboneScoreboard.check exps md) = true ↔
      ∀ p ∈ exps, dictLookup p.1 md = some p.2 := by
  induction exps with
  | nil => simp [WishboneScoreboard.check, exceptOk]
  | cons p rest ih =>
    obtain ⟨sig, ev⟩ := p
    by_cases h : dictLookup sig md = some ev
    · simp [WishboneScoreboard.check, h, ih]
    · simp [WishboneScoreboard.check, h, exceptOk]

/-- Claim C8: the expectation table is last-write-wins.  Recording `t1`
and then `t2` for the same address leaves the table exactly as recording
only `t2`; keys stay unique, and no other key's entry is touched by an
insertion. -/
theorem expectation_last_write_wins (m : List (Nat × WishboneTransaction))
    (t1 t2 : WishboneTransaction) (k : Nat) (h : t1.address = t2.address)
    (hk : k ≠ t1.address) (hnd : (dictKeys m).Nodup) :
    Scoreboard.add_expected_transaction
        (Scoreboard.add_expected_transaction m t1) t2 =
      Scoreboard.add_expected_transaction m t2
    ∧ (dictKeys (Scoreboard.add_expected_transaction m t1)).Nodup
    ∧ dictLookup k (Scoreboard.add_expected_transaction m t1) =
        dictLookup k m := by
  refine ⟨?_, ?_, ?_⟩
  · unfold Scoreboard.add_expected_transaction
    rw [← h]
    exact dictInsert_dictInsert_self t1.address t1 t2 m
  · exact dictKeys_dictInsert_nodup t1.address t1 m hnd
  · exact dictLookup_dictInsert_ne t1 m hk

/-- Witness for C8 at a concrete table and pair of transactions sharing
address five. -/
theorem expectation_last_write_wins_witness :
    (⟨5, 1, 0⟩ : WishboneTransaction).address =
        (⟨5, 2, 0⟩ : WishboneTransaction).address
    ∧ (0 : Nat) ≠ (⟨5, 1, 0⟩ : WishboneTransaction).address
    ∧ (dictKeys ([] : List (Nat × WishboneTransaction))).Nodup
    ∧ (Scoreboard.add_expected_transaction
          (Scoreboard.add_expected_transaction [] ⟨5, 1, 0⟩) ⟨5, 2, 0⟩ =
        Scoreboard.add_expected_transaction [] ⟨5, 2, 0⟩
      ∧ (dictKeys (Scoreboard.add_expected_transaction [] ⟨5, 1, 0⟩)).Nodup
      ∧ dictLookup 0 (Scoreboard.add_expected_transaction [] ⟨5, 1, 0⟩) =
          dictLookup 0 ([] : List (Nat × WishboneTransaction))) :=
  ⟨rfl, by decide, by decide,
    expectation_last_write_wins [] ⟨5, 1, 0⟩ ⟨5, 2, 0⟩ 0 rfl (by decide)
      (by decide)⟩

theorem check_add_self (tbl : List (Nat × WishboneTransaction))
    (t : WishboneTransaction) :
    Scoreboard.check_transaction
        (Scoreboard.add_expected_transaction tbl t) t =
      CheckResult.passed := by
  unfold Scoreboard.check_transaction Scoreboard.add_expected_transaction
  rw [dictLookup_dictInsert_self]
  simp

/-- Claim C10: the check loop of `Testbench.run` registers each
transaction as its own expectation right before checking it, so every
check reports pass; the failed and unexpected branches are never
taken. -/
theorem runChecks_all_passed (tbl : List (Nat × WishboneTransaction))
    (ts : List WishboneTransaction) :
    Testbench.runChecks tbl ts = List.replicate ts.length CheckResult.passed := by
  induction ts generalizing tbl with
  | nil => rfl
  | cons t ts ih =>
    simp [Testbench.runChecks, check_add_self, ih, List.replicate_succ]

theorem recv_data_assert_lb (l : List (WishboneTransaction × Nat)) :
    ∀ t : Nat, ∀ w ∈ WishboneDriver.recv_data t l, t + 1 ≤ w.2.1 := by
  induction l with
  | nil =>
    intro t w hw
    simp [WishboneDriver.recv_data] at hw
  | cons p rest ih =>
    obtain ⟨trn, d⟩ := p
    intro t w hw
    simp only [WishboneDriver.recv_data, List.mem_cons] at hw
    rcases hw with h1 | h2
    · subst h1
      simp
    · have h3 := ih (t + 2 + d) w h2
      omega

/-- Claim C3: the driver executes transactions strictly in dequeue order
(the trace lists them in queue order) and no two transactions' active bus
windows overlap: each window closes strictly before the next one opens,
and every window's assertion edge strictly precedes its acknowledge-driven
deassertion edge. -/
theorem recv_data_ordered_nonoverlapping (t : Nat)
    (l : List (WishboneTransaction × Nat)) :
    (WishboneDriver.recv_data t l).map (fun w => w.1) = l.map Prod.fst
    ∧ List.Pairwise (fun w1 w2 => w1.2.2 < w2.2.1)
        (WishboneDriver.recv_data t l)
    ∧ ∀ w ∈ WishboneDriver.recv_data t l, w.2.1 < w.2.2 := by
  induction l generalizing t with
  | nil => simp [WishboneDriver.recv_data]
  | cons p rest ih =>
    obtain ⟨trn, d⟩ := p
    obtain ⟨ih1, ih2, ih3⟩ := ih (t + 2 + d)
    refine ⟨?_, ?_, ?_⟩
    · simp [WishboneDriver.recv_data, ih1]
    · simp only [WishboneDriver.recv_data]
      refine List.Pairwise.cons ?_ ih2
      intro w hw
      have h3 := recv_data_assert_lb rest (t + 2 + d) w hw
      show (t + 2 + d : Nat) < w.2.1
      omega
    · intro w hw
      simp only [WishboneDriver.recv_data, List.mem_cons] at hw
      rcases hw with h1 | h2
      · subst h1
        show (t + 1 : Nat) < t + 2 + d
        omega
      · exact ih3 w h2

/-- Claim C4 (code bug): the driver's wait for acknowledge is unbounded.
If the acknowledge signal never rises, no finite number of inspected
edges makes the wait complete: the coroutine suspends forever and no
timeout failure is ever produced, for any bound. -/
theorem ack_wait_unbounded (t fuel : Nat) :
    awaitRisingEdge (fun _ => false) t fuel = none := by
  induction fuel generalizing t with
  | zero => rfl
  | succ n ih => simp [awaitRisingEdge, ih]

/-- Claim C5, counterexample: in the dpll testbench the driver issues its
first transaction immediately after reset deassertion; not even one clock
edge separates the two, contradicting the claimed one-edge wait. -/
theorem dpll_reset_no_post_edge :
    ¬ (1 ≤ edgesUntil ResetEvent.txnStart
        (dropThrough ResetEvent.deassertRst dpll_run_trace)) := by
  decide

/-- Claim C5, amended: `test_wb_interface` asserts reset, holds it for
three clock edges, deasserts it and waits one further edge before the
first transaction; the dpll variant holds reset for five edges but issues
its first transaction immediately after deassertion, with no intervening
edge. -/
theorem reset_hold_and_post_edge :
    edgesUntil ResetEvent.deassertRst
        (dropThrough ResetEvent.assertRst tb_run_trace) = 3
    ∧ edgesUntil ResetEvent.txnStart
        (dropThrough ResetEvent.deassertRst tb_run_trace) = 1
    ∧ edgesUntil ResetEvent.deassertRst
        (dropThrough ResetEvent.assertRst dpll_run_trace) = 5
    ∧ edgesUntil ResetEvent.txnStart
        (dropThrough ResetEvent.deassertRst dpll_run_trace) = 0 := by
  decide

/-- Claim C6, counterexample: `gen_data` enqueues its transactions back
to back with no completion wait between them, so already at count two the
generator trace violates the claimed at-most-one-in-flight pacing. -/
theorem gen_data_not_paced :
    paced (WishboneGenerator.gen_data 2) = false := rfl

theorem countWaits_gen_data_go (n : Nat) :
    ∀ i : Nat, countWaits (gen_data_go i n) = 0 := by
  induction n with
  | zero => intro i; rfl
  | succ m ih => intro i; simpa [gen_data_go, countWaits] using ih (i + 1)

theorem countSetEvents_gen_data_go (n : Nat) :
    ∀ i : Nat, countSetEvents (gen_data_go i n) = 1 := by
  induction n with
  | zero => intro i; rfl
  | succ m ih => intro i; simpa [gen_data_go, countSetEvents] using ih (i + 1)

theorem enqueuedAddrs_gen_data_go (n : Nat) :
    ∀ i : Nat, enqueuedAddrs (gen_data_go i n) = List.range' i n := by
  induction n with
  | zero => intro i; rfl
  | succ m ih =>
    intro i
    simp [gen_data_go, enqueuedAddrs, ih (i + 1), List.range'_succ]

/-- Claim C6, amended: the generator is unpaced: `gen_data` enqueues all
`count` transactions (addresses zero up to `count - 1`, in order) with no
completion wait anywhere in its trace, and sets the completion event
exactly once, at the end; no paced mode or configuration flag exists. -/
theorem gen_data_unpaced_shape (count : Nat) :
    countWaits (WishboneGenerator.gen_data count) = 0
    ∧ enqueuedAddrs (WishboneGenerator.gen_data count) = List.range count
    ∧ countSetEvents (WishboneGenerator.gen_data count) = 1 := by
  refine ⟨countWaits_gen_data_go count 0, ?_,
    countSetEvents_gen_data_go count 0⟩
  rw [WishboneGenerator.gen_data, enqueuedAddrs_gen_data_go count 0,
    List.range_eq_range']

/-- Claim C7, counterexample: with `busy_o` stuck asserted past the
five-edge bound, the test raises the assertion failure and aborts; the
subsequent read is never reached, so the run does not continue after the
violation. -/
theorem busy_violation_aborts :
    busyWaitLoop stuckBusy 5 = none
    ∧ test_wb_tail stuckBusy = Except.error TbFailure.busyDeassert :=
  ⟨rfl, rfl⟩

theorem busyWaitLoop_isSome_iff (n : Nat) :
    ∀ s : DutState, (busyWaitLoop s n).isSome = true ↔
      ∃ k, 1 ≤ k ∧ k ≤ n ∧ (dutIter k s).busy_o = 0 := by
  induction n with
  | zero =>
    intro s
    constructor
    · intro h
      simp [busyWaitLoop] at h
    · rintro ⟨k, h1, h2, _⟩
      omega
  | succ n ih =>
    intro s
    rw [busyWaitLoop_succ]
    by_cases h : (dutEdge s).busy_o = 0
    · rw [if_pos h]
      constructor
      · intro _
        exact ⟨1, by omega, by omega, h⟩
      · intro _
        rfl
    · rw [if_neg h, ih (dutEdge s)]
      constructor
      · rintro ⟨k, h1, h2, h3⟩
        exact ⟨k + 1, by omega, by omega, h3⟩
      · rintro ⟨k, h1, h2, h3⟩
        obtain ⟨j, rfl⟩ : ∃ j, k = j + 1 := ⟨k - 1, by omega⟩
        rcases Nat.eq_zero_or_pos j with hj | hj
        · subst hj
          exact absurd h3 h
        · exact ⟨j, by omega, by omega, h3⟩

/-- Claim C7, amended: after the acknowledge, `busy_o` must deassert
within the five-edge polling bound: the test tail returns normally
exactly when some edge within the bound observes busy deasserted, and
otherwise raises the assertion failure that aborts the run (no strict
mode exists and the run never continues past the failure). -/
theorem busy_deassert_bounded (s : DutState) :
    exceptOk (test_wb_tail s) = true ↔
      ∃ k, 1 ≤ k ∧ k ≤ 5 ∧ (dutIter k s).busy_o = 0 := by
  rw [← busyWaitLoop_isSome_iff 5 s]
  unfold test_wb_tail
  cases h : busyWaitLoop s 5 <;> simp [h, exceptOk]

/-- Claim C9: the monitor is purely observational: any number of monitor
loop iterations leaves every signal of the signal interface unchanged
(only the driver and the reset sequence write signals; the monitor only
copies them into its own snapshot dict). -/
theorem monitor_pure_observer (n : Nat) (st : DutState × MonData) :
    (WishboneMonitor.monitorRun n st).1 = st.1 := by
  induction n generalizing st with
  | zero => rfl
  | succ m ih =>
    simp [WishboneMonitor.monitorRun, WishboneMonitor.monitorStep, ih]
